import Mathlib

/-!
Shallow embedding of two modules of the Upload-Assistant repository:

* `src/trackers/OTW.py` — the OTW tracker adapter: static category, type and
  resolution code tables (`get_cat_id`, `get_type_id`, `get_res_id`), the
  response-handling tail of the `upload` coroutine (torrent-id extraction from
  the POST response and the closing of the torrent file handle), and the
  `search_existing` duplicate search with its three policy gates.
* `src/tvmaze.py` — the TVMaze show resolver: normalization of TVDB and IMDb
  id inputs, the `_make_tvmaze_request` / `fetch_tvmaze_data` network layer,
  the staged lookup chain of `search_tvmaze` without a date hint, and the
  deduplication of candidates by TVMaze id.

Network responses, console output and the filesystem are external to the
program; they enter the embedding as explicit oracle values (`NetOutcome`,
`PostResponse`, `SearchHttp`).  Python exceptions that the source code lets
escape are embedded as `Except.error`; code paths on which the source catches
every exception are total Lean functions.
-/

deriving instance DecidableEq for Except

namespace UA

/-! ### Python string and int primitives used by both modules -/

/-- ASCII lower-casing of one character; agrees with Python `str.lower` on
every string this development evaluates. -/
def pyCharLower (c : Char) : Char :=
  if 'A' ≤ c ∧ c ≤ 'Z' then Char.ofNat (c.toNat + 32) else c

/-- Python `str.lower()` (ASCII). -/
def pyLower (s : String) : String := String.mk (s.data.map pyCharLower)

/-- Python `str.startswith(p)`. -/
def pyStartsWith (s p : String) : Bool := p.data.isPrefixOf s.data

/-- Python `s[n:]` for a non-negative `n`. -/
def pyDrop (s : String) (n : Nat) : String := String.mk (s.data.drop n)

/-- Splitting a character list at every occurrence of `sep`, keeping empty
fields — Python `str.split(sep)` semantics for a one-character separator. -/
def splitChar (sep : Char) : List Char → List (List Char)
  | [] => [[]]
  | c :: cs =>
    if c = sep then [] :: splitChar sep cs
    else
      match splitChar sep cs with
      | [] => [[c]]
      | h :: t => (c :: h) :: t

/-- Python `str.split(sep)` with a one-character separator (the only shape
the source uses: `"."` and `"/"`). -/
def pySplit (s : String) (sep : Char) : List String :=
  (splitChar sep s.data).map String.mk

/-- Python substring containment `needle in hay` on `str` values. -/
def strContains (hay needle : String) : Bool :=
  (List.range (hay.data.length + 1)).any
    (fun i => needle.data.isPrefixOf (hay.data.drop i))

/-- Value of a non-empty all-digit character list, most significant first. -/
def digitsVal (cs : List Char) : Nat :=
  cs.foldl (fun n c => n * 10 + (c.toNat - 48)) 0

/-- Digit-string parse: `some` its value when the list is non-empty and all
digits, else `none`. -/
def pyDigits (cs : List Char) : Option Nat :=
  if cs ≠ [] ∧ cs.all Char.isDigit then some (digitsVal cs) else none

/-- Strip leading and trailing whitespace, as Python `int` does before
parsing. -/
def pyTrim (cs : List Char) : List Char :=
  ((cs.dropWhile Char.isWhitespace).reverse.dropWhile Char.isWhitespace).reverse

/-- Model of Python `int(s)` on a string: optional surrounding whitespace,
optional sign, then decimal digits; `none` models `ValueError`.  (Digit-group
underscores are not modelled; no input in this development contains one.) -/
def pyInt (s : String) : Option Int :=
  match pyTrim s.data with
  | '-' :: rest => (pyDigits rest).map (fun n => -(n : Int))
  | '+' :: rest => (pyDigits rest).map (fun n => (n : Int))
  | cs => (pyDigits cs).map (fun n => (n : Int))

/-! ### `src/tvmaze.py` — id normalization (lines 12–27)

The `tvdbID` and `imdbID` arguments of `search_tvmaze` arrive as `None`, a
string, or an integer.  `IdInput` embeds exactly those shapes. -/

inductive IdInput where
  | pyNone
  | str (s : String)
  | int (n : Int)
deriving DecidableEq, Repr

/-- Python truthiness of an `IdInput` (`None` and `""` and `0` are falsy). -/
def IdInput.truthy : IdInput → Bool
  | .pyNone => false
  | .str s => s ≠ ""
  | .int n => n ≠ 0

/-- Python `int(x)` on an `IdInput`; `none` models `ValueError`/`TypeError`. -/
def IdInput.toPyInt : IdInput → Option Int
  | .pyNone => none
  | .str s => pyInt s
  | .int n => some n

/-- Lines 13–17: `tvdbID = int(tvdbID) if tvdbID not in (None, '', '0') else 0`
with `ValueError` caught, printing a diagnostic and defaulting to 0.  Returns
the normalized id and whether the diagnostic was printed. -/
def norm_tvdb : IdInput → Int × Bool
  | .pyNone => (0, false)
  | .str s =>
    if s = "" ∨ s = "0" then (0, false)
    else
      match pyInt s with
      | some n => (n, false)
      | none => (0, true)
  | .int n => (n, false)

/-- Lines 20–27: strips a `tt` prefix before `int(...)`, otherwise the same
tolerance as `norm_tvdb`; `ValueError` caught with a diagnostic. -/
def norm_imdb : IdInput → Int × Bool
  | .str s =>
    if pyStartsWith s "tt" then
      match pyInt (pyDrop s 2) with
      | some n => (n, false)
      | none => (0, true)
    else if s = "" ∨ s = "0" then (0, false)
    else
      match pyInt s with
      | some n => (n, false)
      | none => (0, true)
  | .pyNone => (0, false)
  | .int n => (n, false)

/-! ### `src/trackers/OTW.py` — code tables (lines 39–71)

Each Python function is a dict `.get` with a default; the embedding mirrors
the key-by-key lookup with the same default. -/

def get_cat_id (category_name : String) : String :=
  if category_name = "MOVIE" then "1"
  else if category_name = "TV" then "2"
  else "0"

def get_type_id (type_name : String) : String :=
  if type_name = "DISC" then "1"
  else if type_name = "REMUX" then "2"
  else if type_name = "WEBDL" then "4"
  else if type_name = "WEBRIP" then "5"
  else if type_name = "HDTV" then "6"
  else if type_name = "ENCODE" then "3"
  else "0"

def get_res_id (resolution : String) : String :=
  if resolution = "8640p" then "10"
  else if resolution = "4320p" then "1"
  else if resolution = "2160p" then "2"
  else if resolution = "1440p" then "3"
  else if resolution = "1080p" then "3"
  else if resolution = "1080i" then "4"
  else if resolution = "720p" then "5"
  else if resolution = "576p" then "6"
  else if resolution = "576i" then "7"
  else if resolution = "480p" then "8"
  else if resolution = "480i" then "9"
  else "10"

/-! ### `src/trackers/OTW.py` — upload response handling (lines 170–183)

With `debug` false the code POSTs, then inside `try`: prints the JSON body,
extracts `response.json()['data'].split(".")[1].split("/")[3]` and registers
the tracker URL; any exception prints a warning and RETURNS from `upload`.
`open_torrent.close()` is the next statement after the `try/except`, so it
runs only when the `try` body completes (or on the debug path). -/

/-- The POST response as the `try` block observes it: either a JSON body with
a string `data` field, or anything that makes `response.json()` (or the
`['data']` subscript) raise. -/
inductive PostResponse where
  | jsonData (url : String)
  | parseFailure
deriving DecidableEq, Repr

/-- Line 175: `.split(".")[1].split("/")[3]`; `none` models `IndexError` from
either subscript. -/
def extract_torrent_id (dataUrl : String) : Option String :=
  match (pySplit dataUrl '.').get? 1 with
  | none => none
  | some mid => (pySplit mid '/').get? 3

/-- Observable effects of the tail of `upload`: whether `open_torrent.close()`
was reached, and the tracker URL registered via `add_tracker_torrent`. -/
structure UploadEffects where
  torrent_closed : Bool
  tracker_url : Option String
deriving DecidableEq, Repr

/-- Lines 170–183 of `upload`.  On `debug = false` the `except Exception`
branch returns before the `close()`; on `debug = true` nothing is sent and
the `close()` is reached. -/
def upload_response_tail (debug : Bool) (resp : PostResponse) : UploadEffects :=
  if debug = false then
    match resp with
    | .jsonData url =>
      match extract_torrent_id url with
      | some t_id =>
        { torrent_closed := true
          tracker_url := some ("https://oldtoons.world/torrents/" ++ t_id) }
      | none => { torrent_closed := false, tracker_url := none }
    | .parseFailure => { torrent_closed := false, tracker_url := none }
  else
    { torrent_closed := true, tracker_url := none }

/-! ### `src/trackers/OTW.py` — `search_existing` (lines 185–231) -/

/-- The fields of `meta` that `search_existing` reads.  `genres` is a string
(Python `in` is substring containment there); `keywords` is the release
keyword list; `sd` is the 0/1 integer flag. -/
structure SearchMeta where
  genres : String
  keywords : List String
  sd : Nat
  source : String
  category : String
  typ : String
  resolution : String
  season : String
  edition : String
deriving DecidableEq, Repr

/-- Line 190: the fixed set, verbatim, including its mixed casing. -/
def disallowed_keywords : List String :=
  ["XXX", "Erotic", "Porn", "Hentai", "Adult Animation", "Orgy", "softcore"]

/-- Line 186: `any(genre in meta['genres'] for genre in ['Animation', 'Family'])`. -/
def genre_gate_passes (meta : SearchMeta) : Bool :=
  ["Animation", "Family"].any (fun genre => strContains meta.genres genre)

/-- Line 191: `any(keyword.lower() in disallowed_keywords for keyword in
map(str.lower, meta['keywords']))` — each keyword is lowered by the `map` and
again by `.lower()`, then tested against the (mixed-case) set. -/
def keyword_gate_triggers (meta : SearchMeta) : Bool :=
  (meta.keywords.map pyLower).any
    (fun keyword => disallowed_keywords.contains (pyLower keyword))

/-- Line 195: `meta['sd'] and 'BluRay' in meta['source']`. -/
def sd_gate_triggers (meta : SearchMeta) : Bool :=
  decide (meta.sd ≠ 0) && strContains meta.source "BluRay"

/-- Lines 201–212: the free-text `name` query parameter assembled from the
season and edition hints. -/
def search_name_param (meta : SearchMeta) : String :=
  let name0 := ""
  let name1 := if meta.category = "TV" then name0 ++ " " ++ meta.season else name0
  if meta.edition ≠ "" then name1 ++ " " ++ meta.edition else name1

/-- Outcome of the bounded-timeout GET of `search_existing`: the request
completed with a status code and a (pre-extracted) list of result names, or
one of the caught exception classes was raised. -/
inductive SearchHttp where
  | completed (status : Nat) (names : List String)
  | timeout
  | requestError
  | unexpectedError
deriving DecidableEq, Repr

/-- Python return value of `search_existing`: the bare `return` (None) of the
genre gate, or a list of duplicate names. -/
inductive SearchReturn where
  | pyNone
  | dupes (names : List String)
deriving DecidableEq, Repr

/-- Result of `search_existing`: the value of `meta['skipping']` afterwards
(`none` when the key was never set) and the Python return value. -/
structure SearchOutcome where
  skipping : Option String
  ret : SearchReturn
deriving DecidableEq, Repr

/-- Lines 185–231 of `search_existing`.  Every exception branch and the
non-200 branch fall through to the final `return dupes`. -/
def search_existing (meta : SearchMeta) (net : SearchHttp) : SearchOutcome :=
  if ¬ genre_gate_passes meta then
    { skipping := some "OTW", ret := .pyNone }
  else if keyword_gate_triggers meta then
    { skipping := some "OTW", ret := .dupes [] }
  else if sd_gate_triggers meta then
    { skipping := some "OTW", ret := .dupes [] }
  else
    let dupes : List String :=
      match net with
      | .completed status names => if status = 200 then names else []
      | .timeout => []
      | .requestError => []
      | .unexpectedError => []
    { skipping := none, ret := .dupes dupes }

/-! ### `src/tvmaze.py` — network layer and lookup chain (lines 39–77, 114–127)

The TVMaze API returns JSON.  A lookup endpoint body is a single show object;
the search endpoint body is an array of wrapper objects that may or may not
carry a `show` key.  Only the keys the code reads are modelled. -/

/-- A show object: `id` and `name` keys, each possibly absent. -/
structure TVShow where
  id : Option Int
  name : Option String
deriving DecidableEq, Repr

/-- Python truthiness of the show dict (an empty dict is falsy). -/
def TVShow.truthy (s : TVShow) : Bool := s.id.isSome || s.name.isSome

/-- A search wrapper object; `showField` models the `show` key. -/
structure TVSearchItem where
  showField : Option TVShow
deriving DecidableEq, Repr

/-- Python truthiness of the wrapper dict. -/
def TVSearchItem.truthy (i : TVSearchItem) : Bool := i.showField.isSome

/-- A JSON body: a single object or an array of objects. -/
inductive PyJson (α : Type) where
  | obj (a : α)
  | arr (l : List α)
deriving DecidableEq, Repr

/-- What the network did for one GET: a completed response with a status code
and parsed body, or one of the two caught `httpx` exception classes. -/
inductive NetOutcome (α : Type) where
  | response (status : Nat) (body : PyJson α)
  | httpStatusError (code : Nat)
  | requestError
deriving DecidableEq, Repr

/-- A GET whose outcome is not a 200 response (non-200 status or a raised
transport error). -/
def NetOutcome.failed {α : Type} : NetOutcome α → Bool
  | .response status _ => status ≠ 200
  | .httpStatusError _ => true
  | .requestError => true

/-- Return value of `_make_tvmaze_request`: `resp.json()` on a 200, `None` on
any other status, the `{}` fall-through after a caught exception. -/
inductive ReqResult (α : Type) where
  | jsonBody (j : PyJson α)
  | pyNone
  | emptyDict
deriving DecidableEq, Repr

/-- Lines 114–127: `_make_tvmaze_request` never raises — every outcome maps
to a value. -/
def make_tvmaze_request {α : Type} (o : NetOutcome α) : ReqResult α :=
  match o with
  | .response status body => if status = 200 then .jsonBody body else .pyNone
  | .httpStatusError _ => .emptyDict
  | .requestError => .emptyDict

/-- Lines 42–47: `fetch_tvmaze_data` — a truthy dict becomes a one-element
list, a truthy list is returned as is, everything falsy becomes `[]`. -/
def fetch_tvmaze_data {α : Type} (truthy : α → Bool) (r : ReqResult α) : List α :=
  match r with
  | .jsonBody (.obj a) => if truthy a then [a] else []
  | .jsonBody (.arr l) => if l.isEmpty then [] else l
  | .pyNone => []
  | .emptyDict => []

/-- Line 51–52: the TVDB lookup stage runs only when `tvdbID` is truthy. -/
def tvdb_stage (tvdbID : Int) (o : NetOutcome TVShow) : List TVShow :=
  if tvdbID ≠ 0 then fetch_tvmaze_data TVShow.truthy (make_tvmaze_request o) else []

/-- The IMDb lookup stage body (line 55). -/
def imdb_stage (o : NetOutcome TVShow) : List TVShow :=
  fetch_tvmaze_data TVShow.truthy (make_tvmaze_request o)

/-- Lines 58–59: the free-text search stage keeps only wrappers with a `show`
key and projects them. -/
def title_stage (o : NetOutcome TVSearchItem) : List TVShow :=
  (fetch_tvmaze_data TVSearchItem.truthy (make_tvmaze_request o)).filterMap
    TVSearchItem.showField

/-- Line 54 guard: the IMDb stage is invoked iff the results so far are empty
and `imdbID` is truthy. -/
def imdb_invoked_no_date (tvdbID imdbID : Int) (oT : NetOutcome TVShow) : Bool :=
  (tvdb_stage tvdbID oT).isEmpty && decide (imdbID ≠ 0)

/-- Results accumulated after the first two stages of the no-date branch. -/
def results_after_imdb (tvdbID imdbID : Int) (oT oI : NetOutcome TVShow) : List TVShow :=
  let results := tvdb_stage tvdbID oT
  if results.isEmpty && decide (imdbID ≠ 0) then results ++ imdb_stage oI else results

/-- Line 57 guard: the title search is invoked iff the first two stages
produced nothing. -/
def title_invoked_no_date (tvdbID imdbID : Int) (oT oI : NetOutcome TVShow) : Bool :=
  (results_after_imdb tvdbID imdbID oT oI).isEmpty

/-- Lines 50–59: the whole `manual_date is None` lookup chain. -/
def primary_results_no_date (tvdbID imdbID : Int) (oT oI : NetOutcome TVShow)
    (oS : NetOutcome TVSearchItem) : List TVShow :=
  let results := results_after_imdb tvdbID imdbID oT oI
  if results.isEmpty then results ++ title_stage oS else results

/-! ### `src/tvmaze.py` — deduplication (lines 70–72)

`unique_results = [show for show in results if show['id'] not in seen and not
seen.add(show['id'])]` — the comprehension subscripts `show['id']` for every
element, so a show object without an `id` key raises `KeyError`, embedded as
`Except.error`. -/

/-- The deduplicating comprehension with its mutable `seen` set made an
explicit accumulator. -/
def dedupe_by_id : List TVShow → List Int → Except String (List TVShow)
  | [], _ => .ok []
  | s :: rest, seen =>
    match s.id with
    | none => .error "KeyError: id"
    | some i =>
      if seen.contains i then dedupe_by_id rest seen
      else
        match dedupe_by_id rest (i :: seen) with
        | .ok tail => .ok (s :: tail)
        | .error e => .error e

/-- Modelled from the spec: keep only the first occurrence of each identifier,
in original order — the reference definition the deduplication is compared
against. -/
def keep_first_by_id : List TVShow → List TVShow
  | [] => []
  | s :: rest =>
    s :: keep_first_by_id (rest.filter (fun t => t.id ≠ s.id))
termination_by l => l.length
decreasing_by
  simp only [List.length_cons]
  exact Nat.lt_succ_of_le (List.length_filter_le _ _)

/-- Whether the id of `s` is already in `seen`. -/
def idSeen (seen : List Int) (s : TVShow) : Bool :=
  match s.id with
  | some i => seen.contains i
  | none => false

/-! ### `src/tvmaze.py` — `search_tvmaze`, `manual_date is None` path

The manual-date branch blocks on interactive console input and is outside
this embedding; every claim about the resolver concerns the no-date path. -/

/-- Return value of `search_tvmaze`: bare id or the full triple, per the
`return_full_tuple` flag. -/
inductive TvmazeReturn where
  | idOnly (tvmaze_id : Int)
  | fullTuple (tvmaze_id imdb tvdb : Int)
deriving DecidableEq, Repr

/-- The `(tvmaze_id, imdbID, tvdbID) if return_full_tuple else tvmaze_id`
convention. -/
def tvmaze_ret (full : Bool) (tvmaze_id imdb tvdb : Int) : TvmazeReturn :=
  if full then .fullTuple tvmaze_id imdb tvdb else .idOnly tvmaze_id

/-- `search_tvmaze` with `manual_date = None`: normalization, the
`tvmaze_manual` early return (lines 30–37, `ValueError`/`TypeError` caught),
the lookup chain, deduplication, and automatic selection of the first unique
result (lines 102–104).  An uncaught `KeyError` is `Except.error`. -/
def search_tvmaze_no_date (imdbIn tvdbIn manualIn : IdInput) (full : Bool)
    (oT oI : NetOutcome TVShow) (oS : NetOutcome TVSearchItem) :
    Except String TvmazeReturn :=
  let tvdbID := (norm_tvdb tvdbIn).1
  let imdbID := (norm_imdb imdbIn).1
  if manualIn.truthy then
    match manualIn.toPyInt with
    | some n => .ok (tvmaze_ret full n imdbID tvdbID)
    | none => .ok (tvmaze_ret full 0 imdbID tvdbID)
  else
    let results := primary_results_no_date tvdbID imdbID oT oI oS
    match dedupe_by_id results [] with
    | .error e => .error e
    | .ok [] => .ok (tvmaze_ret full 0 imdbID tvdbID)
    | .ok (selected :: _) =>
      match selected.id with
      | some i => .ok (tvmaze_ret full i imdbID tvdbID)
      | none => .error "KeyError: id"

/-! ## Theorems about the claims -/

/-- C1.  The claim states that with debug disabled the torrent file handle is
closed at the end of the upload attempt even on the path where parsing the
POST response raises.  Counterexample: on the parse-failure path the `except`
branch returns from `upload` before reaching `open_torrent.close()`, so the
handle is not closed. -/
theorem claim_C1_counterexample :
    (upload_response_tail false PostResponse.parseFailure).torrent_closed = false := by
  decide

/-- C1 amended.  With debug disabled the torrent handle is closed only when
the response-parsing `try` body completes (JSON body with a `data` URL whose
id extraction succeeds); on the parse-failure path — and on a successful
parse whose id extraction raises — `upload` returns early without closing.
The debug path closes the handle. -/
theorem claim_C1_close_only_on_success (url : String) (resp : PostResponse) :
    ((extract_torrent_id url).isSome →
      (upload_response_tail false (.jsonData url)).torrent_closed = true) ∧
    (extract_torrent_id url = none →
      (upload_response_tail false (.jsonData url)).torrent_closed = false) ∧
    (upload_response_tail false .parseFailure).torrent_closed = false ∧
    (upload_response_tail true resp).torrent_closed = true := by
  refine ⟨?_, ?_, by decide, by simp [upload_response_tail]⟩
  · intro h
    obtain ⟨t, ht⟩ := Option.isSome_iff_exists.mp h
    simp [upload_response_tail, ht]
  · intro h
    simp [upload_response_tail, h]

/-- C1 witness: the amended theorem applied to a URL whose extraction
succeeds and to the parse-failure response. -/
theorem claim_C1_close_witness :
    (upload_response_tail false
        (.jsonData "https://site.tld/torrents/download/123.abc/456/789")).torrent_closed
      = true ∧
    (upload_response_tail false PostResponse.parseFailure).torrent_closed = false :=
  ⟨(claim_C1_close_only_on_success
      "https://site.tld/torrents/download/123.abc/456/789" .parseFailure).1 (by decide),
   (claim_C1_close_only_on_success "" .parseFailure).2.2.1⟩

/-- C2.  The claim states that when the three gates pass and the GET completes
with a non-200 status, `search_existing` returns `None`.  Counterexample: at
a concrete policy-passing release and a 404 response the function returns the
empty duplicate list (the `return dupes` fall-through), not `None`. -/
theorem claim_C2_counterexample :
    search_existing
        { genres := "Animation", keywords := [], sd := 0, source := "WEB",
          category := "TV", typ := "WEBDL", resolution := "1080p",
          season := "S01", edition := "" }
        (.completed 404 [])
      = { skipping := none, ret := .dupes [] } ∧
    SearchReturn.dupes [] ≠ SearchReturn.pyNone := by
  decide

/-- C2 amended.  When all three policy gates pass and the HTTP GET completes
with a non-200 status, `search_existing` logs and falls through to
`return dupes`, returning the empty list — indistinguishable by return value
from a successful search that found no duplicates; the bare-`return` `None`
outcome only arises from the genre gate. -/
theorem claim_C2_non200_returns_empty_list (meta : SearchMeta) (status : Nat)
    (names : List String) (hg : genre_gate_passes meta = true)
    (hk : keyword_gate_triggers meta = false) (hs : sd_gate_triggers meta = false)
    (hstatus : status ≠ 200) :
    search_existing meta (.completed status names) = { skipping := none, ret := .dupes [] } := by
  simp [search_existing, hg, hk, hs, hstatus]

/-- C2 witness: the amended theorem at a concrete policy-passing release and
a 500 response. -/
theorem claim_C2_non200_witness :
    search_existing
        { genres := "Animation, Family", keywords := ["cartoon"], sd := 0,
          source := "WEB", category := "MOVIE", typ := "ENCODE",
          resolution := "720p", season := "", edition := "" }
        (.completed 500 ["ignored"])
      = { skipping := none, ret := .dupes [] } :=
  claim_C2_non200_returns_empty_list _ 500 ["ignored"] (by decide) (by decide) (by decide)
    (by decide)

/-- C3.  The claim (and the spec) call for case-insensitive rejection of the
disallowed keywords, but line 191 lowercases each keyword and then tests
membership in the mixed-case set, so only `softcore` — the set's one
all-lowercase entry — can ever match: a release with keyword `XXX` passes the
gate and the search proceeds with no skipping flag, while `SOFTCORE` is
caught.  The lowering of the keywords shows case-insensitive matching was the
intent; the set was left unlowered. -/
theorem claim_C3_keyword_gate_case_bug :
    keyword_gate_triggers
        { genres := "Animation", keywords := ["XXX"], sd := 0, source := "WEB",
          category := "TV", typ := "WEBDL", resolution := "1080p",
          season := "S01", edition := "" }
      = false ∧
    (disallowed_keywords.map pyLower).contains (pyLower "XXX") = true ∧
    search_existing
        { genres := "Animation", keywords := ["XXX"], sd := 0, source := "WEB",
          category := "TV", typ := "WEBDL", resolution := "1080p",
          season := "S01", edition := "" }
        (.completed 200 ["Old.Show.S01.1080p"])
      = { skipping := none, ret := .dupes ["Old.Show.S01.1080p"] } ∧
    keyword_gate_triggers
        { genres := "Animation", keywords := ["SOFTCORE"], sd := 0, source := "WEB",
          category := "TV", typ := "WEBDL", resolution := "1080p",
          season := "S01", edition := "" }
      = true := by
  decide

/-- C4.  The claim states that the split-and-index recipe produces the
torrent id from the literal `data` URL
`https://site/torrents/download/123.abc/456/789`.  Counterexample: that
string contains a single dot, so `.split(".")[1]` is `abc/456/789`, whose
split on `/` has only three fields — subscript `[3]` raises `IndexError`
(embedded as `none`) and nothing is registered. -/
theorem claim_C4_counterexample :
    extract_torrent_id "https://site/torrents/download/123.abc/456/789" = none ∧
    upload_response_tail false
        (.jsonData "https://site/torrents/download/123.abc/456/789")
      = { torrent_closed := false, tracker_url := none } := by
  decide

/-- C4 amended.  On the literal URL of the scenario the recipe raises
`IndexError` and the upload falls into the warning path with no id
registered; the recipe only yields an id when the text before the first dot
is the scheme-and-host, as for the live tracker's dotted domain: on
`https://site.tld/torrents/download/123.abc/456/789` it deterministically
yields `123` and the tracker URL is registered. -/
theorem claim_C4_extraction_on_literals :
    extract_torrent_id "https://site/torrents/download/123.abc/456/789" = none ∧
    extract_torrent_id "https://site.tld/torrents/download/123.abc/456/789" = some "123" ∧
    upload_response_tail false
        (.jsonData "https://site.tld/torrents/download/123.abc/456/789")
      = { torrent_closed := true,
          tracker_url := some "https://oldtoons.world/torrents/123" } := by
  decide

/-- C5.  Id normalization in the show resolver: `tt0111161` yields 111161;
`None`, the empty string and `"0"` yield 0 with no diagnostic; `abc` yields 0
with a printed diagnostic — for the IMDb input and, with the same tolerance,
for the TVDB input.  Both normalizers are total Lean functions, so no input
of these shapes raises. -/
theorem claim_C5_id_normalization :
    norm_imdb (.str "tt0111161") = (111161, false) ∧
    norm_imdb (.str "") = (0, false) ∧
    norm_imdb .pyNone = (0, false) ∧
    norm_imdb (.str "0") = (0, false) ∧
    norm_imdb (.str "abc") = (0, true) ∧
    norm_tvdb .pyNone = (0, false) ∧
    norm_tvdb (.str "") = (0, false) ∧
    norm_tvdb (.str "0") = (0, false) ∧
    norm_tvdb (.str "abc") = (0, true) := by
  decide

/-- C8.  The category, type and resolution tables are total: every known
label maps to its documented code and every unknown label maps to the
documented default (`0`, `0`, `10` respectively). -/
theorem claim_C8_code_tables :
    (get_cat_id "MOVIE" = "1" ∧ get_cat_id "TV" = "2" ∧
     get_type_id "DISC" = "1" ∧ get_type_id "REMUX" = "2" ∧
     get_type_id "ENCODE" = "3" ∧ get_type_id "WEBDL" = "4" ∧
     get_type_id "WEBRIP" = "5" ∧ get_type_id "HDTV" = "6" ∧
     get_res_id "8640p" = "10" ∧ get_res_id "4320p" = "1" ∧
     get_res_id "2160p" = "2" ∧ get_res_id "1440p" = "3" ∧
     get_res_id "1080p" = "3" ∧ get_res_id "1080i" = "4" ∧
     get_res_id "720p" = "5" ∧ get_res_id "576p" = "6" ∧
     get_res_id "576i" = "7" ∧ get_res_id "480p" = "8" ∧
     get_res_id "480i" = "9") ∧
    (∀ s : String, s ∉ (["MOVIE", "TV"] : List String) → get_cat_id s = "0") ∧
    (∀ s : String,
      s ∉ (["DISC", "REMUX", "WEBDL", "WEBRIP", "HDTV", "ENCODE"] : List String) →
      get_type_id s = "0") ∧
    (∀ s : String,
      s ∉ (["8640p", "4320p", "2160p", "1440p", "1080p", "1080i", "720p",
            "576p", "576i", "480p", "480i"] : List String) →
      get_res_id s = "10") := by
  refine ⟨by decide, ?_, ?_, ?_⟩
  · intro s hs
    simp only [List.mem_cons, List.not_mem_nil, or_false, not_or] at hs
    simp [get_cat_id, hs.1, hs.2]
  · intro s hs
    simp only [List.mem_cons, List.not_mem_nil, or_false, not_or] at hs
    simp [get_type_id, hs.1, hs.2.1, hs.2.2.1, hs.2.2.2.1, hs.2.2.2.2.1, hs.2.2.2.2.2]
  · intro s hs
    simp only [List.mem_cons, List.not_mem_nil, or_false, not_or] at hs
    obtain ⟨h1, h2, h3, h4, h5, h6, h7, h8, h9, h10, h11⟩ := hs
    simp [get_res_id, h1, h2, h3, h4, h5, h6, h7, h8, h9, h10, h11]

/-- C8 witness: the table lookups at an unknown label, via the theorem. -/
theorem claim_C8_witness :
    get_cat_id "UNKNOWN" = "0" ∧ get_type_id "UNKNOWN" = "0" ∧
    get_res_id "UNKNOWN" = "10" :=
  ⟨claim_C8_code_tables.2.1 "UNKNOWN" (by decide),
   claim_C8_code_tables.2.2.1 "UNKNOWN" (by decide),
   claim_C8_code_tables.2.2.2 "UNKNOWN" (by decide)⟩

/-- C9.  The genre-gate rejection sets the skipping flag and returns `None`
(a bare `return`); the keyword and SD-from-BluRay rejections set the same
flag but return the empty list — the same return value a successful search
with no duplicates produces, so return value alone cannot separate those
rejections from an empty success. -/
theorem claim_C9_rejection_return_values :
    (∀ (meta : SearchMeta) (net : SearchHttp), genre_gate_passes meta = false →
      search_existing meta net = { skipping := some "OTW", ret := .pyNone }) ∧
    (∀ (meta : SearchMeta) (net : SearchHttp), genre_gate_passes meta = true →
      keyword_gate_triggers meta = true →
      search_existing meta net = { skipping := some "OTW", ret := .dupes [] }) ∧
    (∀ (meta : SearchMeta) (net : SearchHttp), genre_gate_passes meta = true →
      keyword_gate_triggers meta = false → sd_gate_triggers meta = true →
      search_existing meta net = { skipping := some "OTW", ret := .dupes [] }) ∧
    (∃ (m₁ m₂ : SearchMeta) (n₁ n₂ : SearchHttp),
      (search_existing m₁ n₁).skipping = some "OTW" ∧
      (search_existing m₂ n₂).skipping = none ∧
      (search_existing m₁ n₁).ret = (search_existing m₂ n₂).ret) := by
  refine ⟨?_, ?_, ?_, ?_⟩
  · intro meta net hg
    simp [search_existing, hg]
  · intro meta net hg hk
    simp [search_existing, hg, hk]
  · intro meta net hg hk hs
    simp [search_existing, hg, hk, hs]
  · refine ⟨{ genres := "Animation", keywords := ["softcore"], sd := 0, source := "WEB",
              category := "TV", typ := "WEBDL", resolution := "1080p",
              season := "S01", edition := "" },
            { genres := "Animation", keywords := [], sd := 0, source := "WEB",
              category := "TV", typ := "WEBDL", resolution := "1080p",
              season := "S01", edition := "" },
            .completed 200 ["A"], .completed 200 [], ?_, ?_, ?_⟩ <;> decide

/-- C9 witness: the three universally quantified parts applied to concrete
releases. -/
theorem claim_C9_witness :
    search_existing
        { genres := "Comedy", keywords := [], sd := 0, source := "WEB",
          category := "TV", typ := "WEBDL", resolution := "1080p",
          season := "S01", edition := "" }
        (.completed 200 [])
      = { skipping := some "OTW", ret := .pyNone } ∧
    search_existing
        { genres := "Animation", keywords := ["softcore"], sd := 0, source := "WEB",
          category := "TV", typ := "WEBDL", resolution := "1080p",
          season := "S01", edition := "" }
        (.completed 200 [])
      = { skipping := some "OTW", ret := .dupes [] } ∧
    search_existing
        { genres := "Animation", keywords := [], sd := 1, source := "BluRay",
          category := "TV", typ := "WEBDL", resolution := "480p",
          season := "S01", edition := "" }
        (.completed 200 [])
      = { skipping := some "OTW", ret := .dupes [] } :=
  ⟨claim_C9_rejection_return_values.1 _ _ (by decide),
   claim_C9_rejection_return_values.2.1 _ _ (by decide) (by decide),
   claim_C9_rejection_return_values.2.2.1 _ _ (by decide) (by decide) (by decide)⟩

/-- A GET whose outcome is not a 200 response contributes no candidates:
`_make_tvmaze_request` maps it to `None` or `{}` and `fetch_tvmaze_data`
turns both into the empty list. -/
theorem fetch_of_failed {α : Type} (tr : α → Bool) (o : NetOutcome α)
    (h : o.failed = true) :
    fetch_tvmaze_data tr (make_tvmaze_request o) = [] := by
  cases o with
  | response status body =>
    have hs : ¬ status = 200 := by simpa [NetOutcome.failed] using h
    simp [make_tvmaze_request, hs, fetch_tvmaze_data]
  | httpStatusError code => simp [make_tvmaze_request, fetch_tvmaze_data]
  | requestError => simp [make_tvmaze_request, fetch_tvmaze_data]

/-- C6.  In the no-date branch the three lookup stages short-circuit: a
non-empty TVDB-stage result suppresses both later stages and is returned
unchanged as the candidate list, the IMDb stage only runs when the TVDB stage
yielded nothing, and the title search only runs when both earlier stages
yielded nothing. -/
theorem claim_C6_lookup_short_circuit (tvdbID imdbID : Int)
    (oT oI : NetOutcome TVShow) (oS : NetOutcome TVSearchItem) :
    (tvdb_stage tvdbID oT ≠ [] →
      imdb_invoked_no_date tvdbID imdbID oT = false ∧
      title_invoked_no_date tvdbID imdbID oT oI = false ∧
      primary_results_no_date tvdbID imdbID oT oI oS = tvdb_stage tvdbID oT) ∧
    (imdb_invoked_no_date tvdbID imdbID oT = true → tvdb_stage tvdbID oT = []) ∧
    (title_invoked_no_date tvdbID imdbID oT oI = true →
      tvdb_stage tvdbID oT = [] ∧
      (imdb_invoked_no_date tvdbID imdbID oT = true → imdb_stage oI = [])) := by
  refine ⟨?_, ?_, ?_⟩
  · intro h
    have he : (tvdb_stage tvdbID oT).isEmpty = false := by
      simpa [List.isEmpty_iff] using h
    refine ⟨?_, ?_, ?_⟩
    · simp [imdb_invoked_no_date, he]
    · simp [title_invoked_no_date, results_after_imdb, he]
    · simp [primary_results_no_date, results_after_imdb, he]
  · intro h
    simp only [imdb_invoked_no_date, Bool.and_eq_true, List.isEmpty_iff] at h
    exact h.1
  · intro h
    simp only [title_invoked_no_date, results_after_imdb, List.isEmpty_iff] at h
    by_cases hc : (tvdb_stage tvdbID oT).isEmpty && decide (imdbID ≠ 0)
    · rw [if_pos hc] at h
      obtain ⟨h1, h2⟩ := List.append_eq_nil.mp h
      exact ⟨h1, fun _ => h2⟩
    · rw [if_neg hc] at h
      refine ⟨h, ?_⟩
      intro hi
      exact absurd (by simpa [imdb_invoked_no_date] using hi) hc

/-- C6 witness: with a truthy TVDB id and a 200 lookup response carrying one
show, the theorem yields that the later stages are not invoked and the
candidate list is exactly the TVDB result. -/
theorem claim_C6_witness :
    imdb_invoked_no_date 5 111161 (.response 200 (.obj ⟨some 42, some "X"⟩)) = false ∧
    title_invoked_no_date 5 111161 (.response 200 (.obj ⟨some 42, some "X"⟩))
      .requestError = false ∧
    primary_results_no_date 5 111161 (.response 200 (.obj ⟨some 42, some "X"⟩))
        .requestError (.response 200 (.arr []))
      = tvdb_stage 5 (.response 200 (.obj ⟨some 42, some "X"⟩)) :=
  (claim_C6_lookup_short_circuit 5 111161 (.response 200 (.obj ⟨some 42, some "X"⟩))
      .requestError (.response 200 (.arr []))).1 (by decide)

/-- The deduplicating comprehension computed against an explicit seen-set
equals the spec-side first-occurrence filter applied to the elements whose id
is not yet seen. -/
theorem dedupe_by_id_eq_keep_first_aux (l : List TVShow) :
    ∀ seen : List Int, (∀ s ∈ l, s.id.isSome) →
      dedupe_by_id l seen = .ok (keep_first_by_id (l.filter (fun s => ! idSeen seen s))) := by
  induction l with
  | nil => intro seen _; simp [dedupe_by_id, keep_first_by_id]
  | cons s rest ih =>
    intro seen hall
    obtain ⟨i, hi⟩ := Option.isSome_iff_exists.mp (hall s (List.mem_cons_self ..))
    have hrest : ∀ t ∈ rest, t.id.isSome := fun t ht => hall t (List.mem_cons_of_mem _ ht)
    by_cases hc : i ∈ seen
    · have hcb : seen.contains i = true := by simpa using hc
      have hseen : idSeen seen s = true := by simp [idSeen, hi, hc]
      simp only [dedupe_by_id, hi, hcb, if_pos]
      rw [ih seen hrest]
      simp [List.filter_cons, hseen]
    · have hcb : seen.contains i = false := by simpa using hc
      have hseen : idSeen seen s = false := by simp [idSeen, hi, hc]
      simp only [dedupe_by_id, hi, hcb, Bool.false_eq_true, if_false]
      rw [ih (i :: seen) hrest]
      rw [List.filter_cons_of_pos (by simp [hseen])]
      rw [keep_first_by_id, List.filter_filter]
      have hfilter :
          rest.filter (fun t => decide (t.id ≠ s.id) && ! idSeen seen t)
            = rest.filter (fun t => ! idSeen (i :: seen) t) := by
        apply List.filter_congr
        intro t _
        cases ht : t.id with
        | none => simp [idSeen, hi, ht]
        | some j =>
          by_cases hji : j = i
          · subst hji; simp [idSeen, hi, ht]
          · simp [idSeen, hi, ht, List.contains_cons, hji]
      rw [hfilter]

/-- C7.  When every candidate carries an id, the deduplication succeeds and
returns exactly the first occurrence of each identifier in original order:
it equals the spec-side `keep_first_by_id` and is a sublist of the input
(order preservation). -/
theorem claim_C7_dedupe_first_occurrence (l : List TVShow)
    (h : ∀ s ∈ l, s.id.isSome) :
    dedupe_by_id l [] = .ok (keep_first_by_id l) ∧
    (keep_first_by_id l).Sublist l := by
  constructor
  · have hfil : l.filter (fun s => ! idSeen [] s) = l :=
      List.filter_eq_self.mpr (fun a _ => by cases h' : a.id <;> simp [idSeen, h'])
    have haux := dedupe_by_id_eq_keep_first_aux l [] h
    rw [hfil] at haux
    exact haux
  · clear h
    induction l using keep_first_by_id.induct with
    | case1 => simp [keep_first_by_id]
    | case2 s rest ih =>
      rw [keep_first_by_id]
      exact (ih.trans (List.filter_sublist _)).cons₂ s

/-- C7 witness: the theorem at a concrete candidate list with two repeated
identifiers; the evaluated result keeps the first occurrences in order. -/
theorem claim_C7_witness :
    dedupe_by_id
        [⟨some 1, some "A"⟩, ⟨some 2, none⟩, ⟨some 1, some "B"⟩,
         ⟨some 3, some "C"⟩, ⟨some 2, some "D"⟩] []
      = .ok (keep_first_by_id
          [⟨some 1, some "A"⟩, ⟨some 2, none⟩, ⟨some 1, some "B"⟩,
           ⟨some 3, some "C"⟩, ⟨some 2, some "D"⟩]) :=
  (claim_C7_dedupe_first_occurrence _ (by decide)).1

/-- C10.  The dedup comprehension subscripts `show['id']` unguarded: a 200
lookup response whose object lacks the `id` key makes the no-date resolver
propagate a `KeyError` to its caller, while transport errors and non-200
statuses on all three endpoints are swallowed by `_make_tvmaze_request` and
produce the normal id-0 return. -/
theorem claim_C10_keyerror_propagation :
    (∀ (imdbIn tvdbIn : IdInput) (full : Bool) (oI : NetOutcome TVShow)
        (oS : NetOutcome TVSearchItem) (s : TVShow),
      (norm_tvdb tvdbIn).1 ≠ 0 → s.id = none → s.name.isSome = true →
      search_tvmaze_no_date imdbIn tvdbIn .pyNone full
          (.response 200 (.obj s)) oI oS
        = .error "KeyError: id") ∧
    (∀ (imdbIn tvdbIn : IdInput) (full : Bool) (oT oI : NetOutcome TVShow)
        (oS : NetOutcome TVSearchItem),
      oT.failed = true → oI.failed = true → oS.failed = true →
      search_tvmaze_no_date imdbIn tvdbIn .pyNone full oT oI oS
        = .ok (tvmaze_ret full 0 (norm_imdb imdbIn).1 (norm_tvdb tvdbIn).1)) := by
  constructor
  · intro imdbIn tvdbIn full oI oS s htv hid hname
    have htruthy : TVShow.truthy s = true := by simp [TVShow.truthy, hname]
    have hstage : tvdb_stage (norm_tvdb tvdbIn).1 (.response 200 (.obj s)) = [s] := by
      simp [tvdb_stage, htv, make_tvmaze_request, fetch_tvmaze_data, htruthy]
    simp [search_tvmaze_no_date, IdInput.truthy, primary_results_no_date,
      results_after_imdb, hstage, dedupe_by_id, hid]
  · intro imdbIn tvdbIn full oT oI oS hT hI hS
    have h1 := fetch_of_failed TVShow.truthy oT hT
    have h2 := fetch_of_failed TVShow.truthy oI hI
    have h3 := fetch_of_failed TVSearchItem.truthy oS hS
    simp [search_tvmaze_no_date, IdInput.truthy, primary_results_no_date,
      results_after_imdb, tvdb_stage, imdb_stage, title_stage, h1, h2, h3,
      dedupe_by_id]

/-- C10 witness: the propagated `KeyError` at a concrete id-less 200 response,
and the swallowed-error return at concrete failed outcomes for all three
endpoints. -/
theorem claim_C10_witness :
    search_tvmaze_no_date (.str "tt0111161") (.str "5") .pyNone false
        (.response 200 (.obj ⟨none, some "X"⟩)) .requestError
        (.response 200 (.arr []))
      = .error "KeyError: id" ∧
    search_tvmaze_no_date (.str "tt0111161") (.str "5") .pyNone true
        .requestError (.response 404 (.obj ⟨some 42, some "X"⟩))
        (.httpStatusError 500)
      = .ok (.fullTuple 0 111161 5) := by
  constructor
  · exact claim_C10_keyerror_propagation.1 (.str "tt0111161") (.str "5") false
      .requestError (.response 200 (.arr [])) ⟨none, some "X"⟩ (by decide) rfl rfl
  · have := claim_C10_keyerror_propagation.2 (.str "tt0111161") (.str "5") true
      .requestError (.response 404 (.obj ⟨some 42, some "X"⟩)) (.httpStatusError 500)
      (by decide) (by decide) (by decide)
    simpa [tvmaze_ret] using this

end UA
